import Mathlib

/-!
Verification development for the seventv2tg repository: a Telegram bot that
converts 7tv emotes into size-constrained looping webm videos, optionally
compositing several emotes into one layered animation.

The repository contains two generations of the media converter; both are
embedded here.  Namespace `V1` models the generation whose degrade loop
lowers both bitrate and framerate (`downscaleVideoParameters` with two
parameters, `createVideoFromSequence`, `ConvertToVideo`), namespace `V2`
models the overlay-capable generation (`downscaleVideoParameters` on the
bitrate only, `assembleSequences`, `createOverlayedVideoFromSequences`,
`OverlayVideos` path construction, `getInputFramerate`).  Namespace
`MediaHandler` models the request dispatcher of the handler package
(`CreateVideoFromEmote`, `mediaWorker`, the activity cache).

External effects are shallowly embedded: the encode-and-measure step
(ffmpeg invocation followed by `os.Stat`) is an oracle function from the
encode parameters (or the full argument list) to the produced file size;
the single output path's file system state is an `Option Int` (absent, or
present with a size); Go `int` is `Int`; Go `float64` arithmetic in
`getInputFramerate` is modelled with `Rat`.
-/

namespace SevenTV

/-- Constant block of the media package: `defaultBitRate = 250`,
`overlayedBitRate = defaultBitRate + 150`, `maxFrameRate = 30`,
`maxResultSize = 256 << 10`. -/
def defaultBitRate : Int := 250

/-- `overlayedBitRate = defaultBitRate + 150` ("since we'll have more details
we might also increase bitrate"). -/
def overlayedBitRate : Int := defaultBitRate + 150

/-- Cap on the derived framerate. -/
def maxFrameRate : Int := 30

/-- Hard output size ceiling: `256 << 10` bytes. -/
def maxResultSize : Int := 256 * 1024

/-- `frame_%03d.png`, the frame mask of the extracted sequences. -/
def frameMask : String := "frame_%03d.png"

/-- `domain.SequenceInput`: one extracted frame sequence (its path mask) plus
the framerate derived for it. -/
structure SequenceInput where
  path : String
  framerate : Int
deriving DecidableEq

namespace V1

/-- `downscaleVideoParameters(bitrate, framerate)` of the first-generation
converter: four thresholds walked in order; `none` models the
"lower quality limit exceeded" error.  Note that the two framerate branches
return `framerate` (not `bitrate`) as the new bitrate, exactly as the source
does (`return framerate, framerate - framerateDropRate, nil`). -/
def downscaleVideoParameters (bitrate framerate : Int) : Option (Int × Int) :=
  if bitrate ≥ 150 then some (bitrate - 20, framerate)
  else if framerate ≥ 25 then some (framerate, framerate - 2)
  else if bitrate ≥ 100 then some (bitrate - 20, framerate)
  else if framerate ≥ 20 then some (framerate, framerate - 2)
  else none

/-- Result of the degrade loop body: success with the parameters of the last
attempt, or the quality-floor error from `downscaleVideoParameters`. -/
inductive EncodeResult where
  | ok (bitrate framerate : Int)
  | floor
deriving DecidableEq

/-- The `createVideoFromSequence` retry loop.  `size b f` is the oracle for
the byte size that the external `assembleSequence` + `os.Stat` step reports
when encoding at bitrate `b` and framerate `f`; the second component of the
state is the file at the single output path (each attempt overwrites it).
The loop is given explicit fuel; `(none, _)` marks fuel exhaustion, proved
unreachable below for fuel `degradeMeasure b f + 1`. -/
def createVideoFromSequence (size : Int → Int → Int) :
    Nat → Int → Int → Option Int → Option EncodeResult × Option Int
  | 0, _, _, fs0 => (none, fs0)
  | n + 1, bitrate, framerate, _ =>
    if size bitrate framerate ≤ maxResultSize then
      (some (EncodeResult.ok bitrate framerate), some (size bitrate framerate))
    else
      match downscaleVideoParameters bitrate framerate with
      | some (b2, f2) => createVideoFromSequence size n b2 f2 (some (size bitrate framerate))
      | none => (some EncodeResult.floor, some (size bitrate framerate))

/-- `Converter.ConvertToVideo`, restricted to the encode stage it wraps:
runs the loop from `defaultBitRate` and, on any failure, removes the output
file (`os.Remove(resPath)`); first component is the success indicator
(`resPath` returned), second the file at the output path afterwards. -/
def ConvertToVideo (size : Int → Int → Int) (framerate : Int) :
    Option Unit × Option Int :=
  match createVideoFromSequence size
      ((framerate.toNat * framerate.toNat + framerate.toNat + defaultBitRate.toNat) + 1)
      defaultBitRate framerate none with
  | (some (EncodeResult.ok _ _), fs) => (some (), fs)
  | (_, _) => (none, none)

end V1

/-- Termination measure for the first-generation degrade loop: every
successful `downscaleVideoParameters` step strictly decreases it. -/
def degradeMeasure (b f : Int) : Nat :=
  f.toNat * f.toNat + f.toNat + b.toNat

lemma downscale_degradeMeasure_lt {b f b2 f2 : Int}
    (h : V1.downscaleVideoParameters b f = some (b2, f2)) :
    degradeMeasure b2 f2 < degradeMeasure b f := by
  unfold V1.downscaleVideoParameters at h
  unfold degradeMeasure
  split_ifs at h with h1 h2 h3 h4
  · simp only [Option.some.injEq, Prod.mk.injEq] at h
    obtain ⟨hb, hf⟩ := h
    subst hb; subst hf
    have hgen : ∀ K : Nat, K + f.toNat + (b - 20).toNat < K + f.toNat + b.toNat := by
      intro K; omega
    exact hgen _
  · simp only [Option.some.injEq, Prod.mk.injEq] at h
    obtain ⟨hb, hf⟩ := h
    subst hb; subst hf
    obtain ⟨G, hG⟩ : ∃ G, f.toNat = G + 2 := ⟨f.toNat - 2, by omega⟩
    have hf2 : (f - 2).toNat = G := by omega
    rw [hf2, hG]
    have hx : (G + 2) * (G + 2) = G * G + 4 * G + 4 := by ring
    rw [hx]
    have hgen : ∀ K : Nat, K + G + (G + 2) < K + 4 * G + 4 + (G + 2) + b.toNat := by
      intro K; omega
    exact hgen (G * G)
  · simp only [Option.some.injEq, Prod.mk.injEq] at h
    obtain ⟨hb, hf⟩ := h
    subst hb; subst hf
    have hgen : ∀ K : Nat, K + f.toNat + (b - 20).toNat < K + f.toNat + b.toNat := by
      intro K; omega
    exact hgen _
  · simp only [Option.some.injEq, Prod.mk.injEq] at h
    obtain ⟨hb, hf⟩ := h
    subst hb; subst hf
    obtain ⟨G, hG⟩ : ∃ G, f.toNat = G + 2 := ⟨f.toNat - 2, by omega⟩
    have hf2 : (f - 2).toNat = G := by omega
    rw [hf2, hG]
    have hx : (G + 2) * (G + 2) = G * G + 4 * G + 4 := by ring
    rw [hx]
    have hgen : ∀ K : Nat, K + G + (G + 2) < K + 4 * G + 4 + (G + 2) + b.toNat := by
      intro K; omega
    exact hgen (G * G)

lemma createVideoFromSequence_isSome (size : Int → Int → Int) :
    ∀ (n : Nat) (b f : Int) (fs0 : Option Int), degradeMeasure b f < n →
      ((V1.createVideoFromSequence size n b f fs0).1).isSome := by
  intro n
  induction n with
  | zero => intro b f fs0 h; exact absurd h (by omega)
  | succ n ih =>
    intro b f fs0 h
    rw [V1.createVideoFromSequence]
    split
    · rfl
    · cases hd : V1.downscaleVideoParameters b f with
      | none => simp [hd]
      | some p =>
        obtain ⟨b2, f2⟩ := p
        simp only [hd]
        exact ih b2 f2 _ (by
          have := downscale_degradeMeasure_lt hd
          omega)

lemma createVideoFromSequence_ok (size : Int → Int → Int) :
    ∀ (n : Nat) (b f : Int) (fs0 : Option Int) (b2 f2 : Int),
      (V1.createVideoFromSequence size n b f fs0).1 = some (V1.EncodeResult.ok b2 f2) →
      (V1.createVideoFromSequence size n b f fs0).2 = some (size b2 f2) ∧
        size b2 f2 ≤ maxResultSize := by
  intro n
  induction n with
  | zero => intro b f fs0 b2 f2 h; exact absurd h (by simp [V1.createVideoFromSequence])
  | succ n ih =>
    intro b f fs0 b2 f2 h
    rw [V1.createVideoFromSequence] at h ⊢
    split at h
    · rename_i hle
      simp only [Option.some.injEq, V1.EncodeResult.ok.injEq] at h
      obtain ⟨hb, hf⟩ := h
      subst hb; subst hf
      exact ⟨by simp [hle], hle⟩
    · rename_i hgt
      cases hd : V1.downscaleVideoParameters b f with
      | none => simp only [hd] at h; exact absurd h (by simp)
      | some p =>
        obtain ⟨b3, f3⟩ := p
        simp only [hd] at h ⊢
        split
        · exact absurd (by assumption) hgt
        · exact ih b3 f3 _ b2 f2 h

lemma createVideoFromSequence_floor (size : Int → Int → Int) :
    ∀ (n : Nat) (b f : Int) (fs0 : Option Int),
      (V1.createVideoFromSequence size n b f fs0).1 = some V1.EncodeResult.floor →
      ∃ s, (V1.createVideoFromSequence size n b f fs0).2 = some s ∧ maxResultSize < s := by
  intro n
  induction n with
  | zero => intro b f fs0 h; exact absurd h (by simp [V1.createVideoFromSequence])
  | succ n ih =>
    intro b f fs0 h
    rw [V1.createVideoFromSequence] at h ⊢
    split at h
    · exact absurd h (by simp)
    · rename_i hgt
      cases hd : V1.downscaleVideoParameters b f with
      | none =>
        simp only [hd] at h ⊢
        split
        · exact absurd (by assumption) hgt
        · exact ⟨size b f, rfl, by omega⟩
      | some p =>
        obtain ⟨b3, f3⟩ := p
        simp only [hd] at h ⊢
        split
        · exact absurd (by assumption) hgt
        · exact ih b3 f3 _ h

namespace V2

/-- `downscaleVideoParameters(bitrate)` of the overlay-capable converter:
drop the bitrate by 20 while it exceeds the single floor 150; `none` models
the "lower quality limit exceeded" error. -/
def downscaleVideoParameters (bitrate : Int) : Option Int :=
  if bitrate > 150 then some (bitrate - 20) else none

/-- The per-layer scale filter of `assembleSequences`
(`scale='if(gte(iw,ih),512,-1)':'if(gte(ih,iw),512,-1)',format=yuva420p,loop=0`). -/
def scaleFilter : String :=
  "scale=\x27if(gte(iw,ih),512,-1)\x27:\x27if(gte(ih,iw),512,-1)\x27,format=yuva420p,loop=0"

/-- One fragment of `scaleString`: `"[%d:v] <scaleFilter> [scale%d]; "`. -/
def scaleFragment (i : Nat) : String :=
  "[" ++ toString i ++ ":v] " ++ scaleFilter ++ " [scale" ++ toString i ++ "]; "

/-- `scaleString` accumulated over `i = 0 .. n-1`. -/
def scaleString (n : Nat) : String :=
  String.join ((List.range n).map scaleFragment)

/-- One `overlay=shortest=1` step of the filter graph: its two input pad
labels and its output pad label (`none` for the final, unlabeled step). -/
structure OverlayStep where
  inp1 : String
  inp2 : String
  out : Option String
deriving DecidableEq

/-- The overlay fragment written for loop index `i` of `n` inputs, mirroring
the `switch i` of `assembleSequences`: `case 0` consumes `[scale0][scale1]`
into `[overlay0]`; `case len(inputs)-1` consumes
`[overlay(i-1)][scale(i)]` with no output label; the default case consumes
`[overlay(i-1)][scale(i)]` into `[overlay(i)]`. -/
def overlayStep (n i : Nat) : OverlayStep :=
  if i = 0 then ⟨"scale0", "scale1", some "overlay0"⟩
  else if i = n - 1 then
    ⟨"overlay" ++ toString (i - 1), "scale" ++ toString i, none⟩
  else
    ⟨"overlay" ++ toString (i - 1), "scale" ++ toString i,
      some ("overlay" ++ toString i)⟩

/-- All overlay fragments written by the `for i := 0; i < len(inputs); i++`
loop of `assembleSequences`: one per loop index. -/
def overlaySteps (n : Nat) : List OverlayStep :=
  (List.range n).map (overlayStep n)

/-- Serialization of one overlay step back to the exact `Sprintf` text of
the source (`"[%s][%s] overlay=shortest=1 [%s]; "` resp.
`"[%s][%s] overlay=shortest=1"`). -/
def renderOverlayStep (st : OverlayStep) : String :=
  "[" ++ st.inp1 ++ "][" ++ st.inp2 ++ "] overlay=shortest=1" ++
    match st.out with
    | some o => " [" ++ o ++ "]; "
    | none => ""

/-- `overlayString` accumulated over the loop. -/
def overlayString (n : Nat) : String :=
  String.join ((overlaySteps n).map renderOverlayStep)

/-- The per-input argument blocks built by `assembleSequences` before the
filter is appended: the first input gets
`-y -loglevel error -framerate <f0> -i <p0>`, every further input gets
`-stream_loop -1 -framerate <fi> -i <pi>`. -/
def inputBlocks : List SequenceInput → List (List String)
  | [] => []
  | inp0 :: rest =>
    ["-y", "-loglevel", "error", "-framerate", toString inp0.framerate,
      "-i", inp0.path] ::
      rest.map (fun inp =>
        ["-stream_loop", "-1", "-framerate", toString inp.framerate,
          "-i", inp.path])

/-- The flattened input argument list of `assembleSequences`. -/
def inputArgs (inputs : List SequenceInput) : List String :=
  (inputBlocks inputs).flatten

/-- An input (argument block) is marked to loop indefinitely exactly when its
block starts with `-stream_loop` (the code always writes `-stream_loop -1`
first in a block when it writes it at all). -/
def markedLooping (block : List String) : Bool :=
  block.head? == some "-stream_loop"

/-- `assembleSequences(inputs, outPath, bitrate)`: `none` models the
"not enough videos to merge" error for fewer than two inputs; otherwise the
full ffmpeg argument list.  Note the `-b:v` value is built from the constant
`overlayedBitRate`; the `bitrate` parameter is not used anywhere, exactly as
in the source. -/
def assembleSequences (inputs : List SequenceInput) (outPath : String)
    (bitrate : Int) : Option (List String) :=
  if inputs.length < 2 then none
  else
    some (inputArgs inputs ++
      ["-filter_complex", scaleString inputs.length ++ overlayString inputs.length,
        "-c:v", "libvpx-vp9", "-an",
        "-b:v", toString overlayedBitRate ++ "K",
        "-t", "3", "-threads", "3", outPath])

/-- Result of the overlay degrade loop. -/
inductive OverlayResult where
  | ok (bitrate : Int)
  | floor
  | insufficientLayers
deriving DecidableEq

/-- The retry loop of `createOverlayedVideoFromSequences`, with its current
bitrate made explicit.  `sizeOf args` is the oracle for the byte size that
the external `assembleSequences` invocation + `os.Stat` report for the
argument list `args`.  Explicit fuel; `none` marks exhaustion, proved
unreachable below for fuel `bitrate.toNat + 1`. -/
def createOverlayedVideoFromSequencesLoop (sizeOf : List String → Int)
    (inputs : List SequenceInput) (outPath : String) :
    Nat → Int → Option OverlayResult
  | 0, _ => none
  | n + 1, bitrate =>
    match assembleSequences inputs outPath bitrate with
    | none => some OverlayResult.insufficientLayers
    | some args =>
      if sizeOf args ≤ maxResultSize then some (OverlayResult.ok bitrate)
      else
        match downscaleVideoParameters bitrate with
        | some b2 => createOverlayedVideoFromSequencesLoop sizeOf inputs outPath n b2
        | none => some OverlayResult.floor

/-- `createOverlayedVideoFromSequences` starts its loop from
`bitrate := defaultBitRate`. -/
def createOverlayedVideoFromSequences (sizeOf : List String → Int)
    (inputs : List SequenceInput) (outPath : String) (fuel : Nat) :
    Option OverlayResult :=
  createOverlayedVideoFromSequencesLoop sizeOf inputs outPath fuel defaultBitRate

end V2

lemma v2_downscale_toNat_lt {b b2 : Int}
    (h : V2.downscaleVideoParameters b = some b2) : b2.toNat < b.toNat := by
  unfold V2.downscaleVideoParameters at h
  split_ifs at h with h1
  simp only [Option.some.injEq] at h
  omega

lemma overlayLoop_isSome (sizeOf : List String → Int)
    (inputs : List SequenceInput) (outPath : String) :
    ∀ (n : Nat) (b : Int), b.toNat < n →
      (V2.createOverlayedVideoFromSequencesLoop sizeOf inputs outPath n b).isSome := by
  intro n
  induction n with
  | zero => intro b h; exact absurd h (by omega)
  | succ n ih =>
    intro b h
    rw [V2.createOverlayedVideoFromSequencesLoop]
    cases ha : V2.assembleSequences inputs outPath b with
    | none => simp
    | some args =>
      simp only
      split
      · rfl
      · cases hd : V2.downscaleVideoParameters b with
        | none => simp [hd]
        | some b2 =>
          simp only [hd]
          exact ih b2 (by
            have := v2_downscale_toNat_lt hd
            omega)

/-- Claim C1: the spec says the second and fourth threshold branches of the
single-layer degradation step return `(bitrate, framerate - 2)`, leaving the
bitrate unchanged.  The code instead returns `(framerate, framerate - 2)`:
at bitrate 140 and framerate 30 the step yields `(30, 28)`, changing both
parameters, not `(140, 28)`. -/
theorem c1_framerate_branch_sets_bitrate :
    V1.downscaleVideoParameters 140 30 = some (30, 28) ∧
      V1.downscaleVideoParameters 140 30 ≠ some (140, 28) := by
  constructor
  · decide
  · decide

/-- Claim C8: the degrade loop of `createVideoFromSequence` succeeds exactly
when the most recently measured size of the (single, overwritten) output
file is at most `maxResultSize = 262144`: on success the output file holds
the last attempt, whose size is within the ceiling; when the degradation
steps are exhausted (`floor`), the last attempt measured strictly above the
ceiling, and `ConvertToVideo` then reports failure with the output file
removed. -/
theorem c8_size_ceiling_and_cleanup (size : Int → Int → Int) (n : Nat)
    (b f : Int) (fs0 : Option Int) :
    (∀ b2 f2, (V1.createVideoFromSequence size n b f fs0).1 =
        some (V1.EncodeResult.ok b2 f2) →
      (V1.createVideoFromSequence size n b f fs0).2 = some (size b2 f2) ∧
        size b2 f2 ≤ maxResultSize) ∧
    ((V1.createVideoFromSequence size n b f fs0).1 = some V1.EncodeResult.floor →
      ∃ s, (V1.createVideoFromSequence size n b f fs0).2 = some s ∧
        maxResultSize < s) ∧
    (∀ f0 : Int, (V1.ConvertToVideo size f0).1 = none →
      (V1.ConvertToVideo size f0).2 = none) := by
  refine ⟨fun b2 f2 h => createVideoFromSequence_ok size n b f fs0 b2 f2 h,
    fun h => createVideoFromSequence_floor size n b f fs0 h,
    fun f0 => ?_⟩
  unfold V1.ConvertToVideo
  split
  · intro h; exact absurd h (by simp)
  · intro _; rfl

/-- Closed instance of `c8_size_ceiling_and_cleanup`: a first attempt of
size 100 succeeds with the file kept; a one-step-to-floor run (parameters
10/10 under an oracle reporting 262145) fails with the last measurement
above the ceiling, and `ConvertToVideo` under the same oracle ends with the
output file removed. -/
theorem c8_size_ceiling_and_cleanup_witness :
    ((V1.createVideoFromSequence (fun _ _ => (100 : Int)) 1 250 30 none).2 =
        some 100 ∧ (100 : Int) ≤ maxResultSize) ∧
    (∃ s, (V1.createVideoFromSequence (fun _ _ => (262145 : Int)) 1 10 10 none).2 =
        some s ∧ maxResultSize < s) ∧
    (V1.ConvertToVideo (fun _ _ => (262145 : Int)) 10).2 = none :=
  ⟨(c8_size_ceiling_and_cleanup (fun _ _ => (100 : Int)) 1 250 30 none).1
      250 30 (by decide),
   (c8_size_ceiling_and_cleanup (fun _ _ => (262145 : Int)) 1 10 10 none).2.1
      (by decide),
   (c8_size_ceiling_and_cleanup (fun _ _ => (262145 : Int)) 1 10 10 none).2.2
      10 (by decide)⟩

/-- Claim C9: both degrade-loop variants are deterministic (they are
functions of their inputs and oracles) and terminate within a bounded
number of iterations: fuel `degradeMeasure b f + 1` always suffices for the
single-layer loop, and fuel `b.toNat + 1` for the overlay loop, whatever
the encode-and-measure oracles return. -/
theorem c9_degrade_loops_terminate :
    (∀ (size : Int → Int → Int) (b f : Int) (fs0 : Option Int),
        ((V1.createVideoFromSequence size (degradeMeasure b f + 1) b f fs0).1).isSome = true) ∧
    (∀ (sizeOf : List String → Int) (inputs : List SequenceInput)
        (outPath : String) (b : Int),
        (V2.createOverlayedVideoFromSequencesLoop sizeOf inputs outPath
          (b.toNat + 1) b).isSome = true) :=
  ⟨fun size b f fs0 => createVideoFromSequence_isSome size _ b f fs0 (by omega),
   fun sizeOf inputs outPath b => overlayLoop_isSome sizeOf inputs outPath _ b (by omega)⟩

/-- Claim C4: the composite degrade loop starts from
`bitrate := defaultBitRate = 250` (not `defaultBitRate + 150 = 400`), and
`assembleSequences` ignores the degraded bitrate entirely: for a two-layer
job, the argument lists built at bitrate 230 and at bitrate 400 are equal
and carry `-b:v 400K`, never `230K`; under an oracle that always reports an
oversized file the loop retries with identical invocations until the floor
is crossed. -/
theorem c4_composite_bitrate_constant :
    V2.createOverlayedVideoFromSequences (fun _ => maxResultSize + 1)
        [⟨"l0", 30⟩, ⟨"l1", 30⟩] "out.webm" 20 = some V2.OverlayResult.floor ∧
    V2.assembleSequences [⟨"l0", 30⟩, ⟨"l1", 30⟩] "out.webm" 230 =
      V2.assembleSequences [⟨"l0", 30⟩, ⟨"l1", 30⟩] "out.webm" overlayedBitRate ∧
    "400K" ∈ (V2.assembleSequences [⟨"l0", 30⟩, ⟨"l1", 30⟩] "out.webm" 230).getD [] ∧
    "230K" ∉ (V2.assembleSequences [⟨"l0", 30⟩, ⟨"l1", 30⟩] "out.webm" 230).getD [] ∧
    defaultBitRate = 250 ∧ overlayedBitRate = 400 :=
  ⟨by decide, rfl, by decide, by decide, rfl, rfl⟩

/-- Claim C5 counterexample: the composite invocation never marks the base
layer (input 0) as looping — its argument block carries no `-stream_loop`
flag.  The invocation receives only each layer's sequence path and
framerate, never a duration, so this holds in particular for the job the
spec describes with layer durations [3.0s (base), 1.0s, 5.0s], refuting
"the base layer is marked looping because layer 2's duration exceeds the
base's". -/
theorem c5_counterexample :
    V2.markedLooping ((V2.inputBlocks
      [⟨"layer0.png", 10⟩, ⟨"layer1.png", 30⟩, ⟨"layer2.png", 6⟩]).headI) = false := by
  decide

/-- Claim C5 (amended): in the composite invocation every non-base layer is
always marked to loop indefinitely (`-stream_loop -1`), and the base layer
is never marked looping, regardless of the layers' durations (which the
invocation does not consult). -/
theorem c5_looping_marks (inputs : List SequenceInput) (h : inputs ≠ []) :
    V2.markedLooping ((V2.inputBlocks inputs).headI) = false ∧
    ∀ blk ∈ (V2.inputBlocks inputs).tail, V2.markedLooping blk = true := by
  cases inputs with
  | nil => exact absurd rfl h
  | cons inp0 rest =>
    constructor
    · rfl
    · intro blk hblk
      simp only [V2.inputBlocks, List.tail_cons] at hblk
      obtain ⟨inp, _, rfl⟩ := List.mem_map.mp hblk
      rfl

/-- Closed instance of `c5_looping_marks` for a two-layer job. -/
theorem c5_looping_marks_witness :
    V2.markedLooping ((V2.inputBlocks
      [⟨"base.png", 30⟩, ⟨"ov.png", 30⟩]).headI) = false ∧
    ∀ blk ∈ (V2.inputBlocks [⟨"base.png", 30⟩, ⟨"ov.png", 30⟩]).tail,
      V2.markedLooping blk = true :=
  c5_looping_marks [⟨"base.png", 30⟩, ⟨"ov.png", 30⟩] (by decide)

/-- Claim C6: for `n ≥ 2` ordered layer inputs the claim expects `n - 1`
overlay steps with each non-base layer consumed exactly once; the filter
graph that `assembleSequences` actually builds contains one overlay step
per loop index — `n` steps in total — and layer 1's scaled stream
`[scale1]` is consumed by two distinct steps (the `i = 0` step and the
`i = 1` step), shown here for `n = 2` and `n = 3` together with the exact
rendered filter text for `n = 2`. -/
theorem c6_overlay_graph_shape :
    (V2.overlaySteps 2).length = 2 ∧
    (V2.overlaySteps 2).countP
      (fun st => st.inp1 == "scale1" || st.inp2 == "scale1") = 2 ∧
    (V2.overlaySteps 3).length = 3 ∧
    (V2.overlaySteps 3).countP
      (fun st => st.inp1 == "scale1" || st.inp2 == "scale1") = 2 ∧
    V2.overlayString 2 =
      "[scale0][scale1] overlay=shortest=1 [overlay0]; [overlay0][scale1] overlay=shortest=1" := by
  refine ⟨rfl, by decide, rfl, by decide, by decide⟩

namespace V2

/-- `getInputFramerate`, parameterized by the per-frame display delays that
`magick identify -format %T` reports (already parsed to integers, one per
frame): fails ("invalid animation timing") when the summed delays are zero;
otherwise derives frames-per-second from frame count over total elapsed
time (delays are in centiseconds) and caps at `maxFrameRate`.  Go `float64`
arithmetic and `math.Round` are modelled with `Rat` and `round`. -/
def getInputFramerate (delays : List Int) : Option Int :=
  if delays.sum = 0 ∨ delays.length = 0 then none
  else
    some (min maxFrameRate
      (round ((delays.length : ℚ) / ((delays.sum : ℚ) / 100))))

/-- The framerate-derivation part of `OverlayVideos`: one
`getInputFramerate` call per layer, any failure propagated as the whole
operation's error (`return "", errors.Wrap(err, errMsg)`). -/
def overlayFramerates : List (List Int) → Option (List Int)
  | [] => some []
  | d :: ds =>
    match getInputFramerate d, overlayFramerates ds with
    | some f, some fs => some (f :: fs)
    | _, _ => none

/-- The frame-sequence path that the per-layer loop of `OverlayVideos`
computes for each input: `filepath.Join(m.jobsDir, jobID, "frames")` then
`filepath.Join(framesDirPath, frameMask)` — note the loop body does not
depend on the loop index. -/
def overlaySequencePaths (jobsDir jobID : String)
    (inpFilePaths : List String) : List String :=
  inpFilePaths.map
    (fun _ => jobsDir ++ "/" ++ jobID ++ "/" ++ "frames" ++ "/" ++ frameMask)

end V2

/-- Claim C7 counterexample: a source whose summed per-frame delays are zero
makes the single-asset path fail (`getInputFramerate [0, 0] = none`), but
the multi-asset path fails as well instead of falling back to "one frame,
framerate 1": `overlayFramerates` propagates the error for a job whose
second layer has zero total timing, rather than yielding the claimed
fallback `[2, 1]`. -/
theorem c7_counterexample :
    V2.getInputFramerate [0, 0] = none ∧
    V2.overlayFramerates [[50], [0, 0]] = none ∧
    V2.overlayFramerates [[50], [0, 0]] ≠ some [2, 1] := by
  refine ⟨by decide, by decide, by decide⟩

/-- Claim C7 (amended): when the summed per-frame display delays of a source
are zero, the single-asset conversion path and the multi-asset (overlay)
path both fail with the timing error; no path falls back to one frame at
framerate 1. -/
theorem c7_zero_timing_fails_both_paths (delays : List Int)
    (h : delays.sum = 0) :
    V2.getInputFramerate delays = none ∧
    ∀ pre post, V2.overlayFramerates (pre ++ delays :: post) = none := by
  have h1 : V2.getInputFramerate delays = none := by
    unfold V2.getInputFramerate
    rw [if_pos (Or.inl h)]
  refine ⟨h1, ?_⟩
  intro pre post
  induction pre with
  | nil =>
    simp only [List.nil_append, V2.overlayFramerates]
    rw [h1]
  | cons p ps ih =>
    simp only [List.cons_append, V2.overlayFramerates, List.append_eq]
    rw [ih]
    cases V2.getInputFramerate p <;> rfl

/-- Closed instance of `c7_zero_timing_fails_both_paths` at a one-frame
zero-delay source. -/
theorem c7_zero_timing_witness :
    V2.getInputFramerate [0] = none ∧
    V2.overlayFramerates ([[50]] ++ [0] :: [[50]]) = none :=
  ⟨(c7_zero_timing_fails_both_paths [0] (by decide)).1,
   (c7_zero_timing_fails_both_paths [0] (by decide)).2 [[50]] [[50]]⟩

/-- Claim C10: the spec expects each layer's frame sequence in its own
per-layer `frames-N` subtree with pairwise distinct sequence paths; the
per-layer loop of `OverlayVideos` instead computes the same
`<jobsDir>/<jobID>/frames/frame_%03d.png` path for every layer, so the
sequence paths handed to the composite invocation coincide. -/
theorem c10_shared_frames_subtree :
    V2.overlaySequencePaths "jobs" "job1" ["a.webp", "b.webp"] =
      ["jobs/job1/frames/frame_%03d.png", "jobs/job1/frames/frame_%03d.png"] ∧
    (V2.overlaySequencePaths "jobs" "job1" ["a.webp", "b.webp"])[0]? =
      (V2.overlaySequencePaths "jobs" "job1" ["a.webp", "b.webp"])[1]? := by
  refine ⟨by decide, by decide⟩

namespace MediaHandler

/-- `maxOverlayedEmotes = 3`. -/
def maxOverlayedEmotes : Nat := 3

/-- Helper for `fields`: scan the characters, accumulating the current
token (reversed) and emitting it at each whitespace boundary. -/
def fieldsAux : List Char → List Char → List String
  | [], acc => if acc = [] then [] else [String.mk acc.reverse]
  | c :: cs, acc =>
    if c.isWhitespace then
      if acc = [] then fieldsAux cs [] else String.mk acc.reverse :: fieldsAux cs []
    else fieldsAux cs (c :: acc)

/-- `strings.Fields`: the whitespace-separated tokens of a string (runs of
whitespace separate tokens; leading/trailing whitespace yields none). -/
def fields (s : String) : List String :=
  fieldsAux s.toList []

/-- `domain.UserRequest` as the dispatcher queue carries it (the result
channel is modelled by the resolution step `activityDelete` below). -/
structure UserRequest where
  chatID : Int
  replyToMessageID : Int
  emoteIDs : List String
deriving DecidableEq

/-- The dispatcher state touched by a submission: the activity cache (keyed
by chat ID) and the request queue. -/
structure HandlerState where
  activity : List Int
  queue : List UserRequest
deriving DecidableEq

/-- Outcome of one `CreateVideoFromEmote` submission. -/
inductive SubmitOutcome where
  | busy
  | invalid
  | enqueued (req : UserRequest)
deriving DecidableEq

/-- The validation loop of `CreateVideoFromEmote`: validate the tokens in
order, aborting on the first failure, else collect the emote IDs. -/
def validateAll (validate : String → Option String) :
    List String → Option (List String)
  | [] => some []
  | t :: ts =>
    match validate t with
    | none => none
    | some e =>
      match validateAll validate ts with
      | none => none
      | some es => some (e :: es)

/-- The submission path of `CreateVideoFromEmote`, parameterized by the
per-token validator `validateUserInput`: reject while the chat ID is in the
activity cache; take the first `maxOverlayedEmotes` whitespace tokens;
reject on any invalid token (cache untouched); otherwise insert the chat ID
into the cache and hand the request to the queue. -/
def CreateVideoFromEmote (validate : String → Option String)
    (s : HandlerState) (chatID mid : Int) (text : String) :
    HandlerState × SubmitOutcome :=
  if chatID ∈ s.activity then (s, SubmitOutcome.busy)
  else
    match validateAll validate
        ((fields text).take (min (fields text).length maxOverlayedEmotes)) with
    | none => (s, SubmitOutcome.invalid)
    | some emoteIDs =>
      (⟨chatID :: s.activity, s.queue ++ [⟨chatID, mid, emoteIDs⟩]⟩,
        SubmitOutcome.enqueued ⟨chatID, mid, emoteIDs⟩)

/-- The deferred `activityCache.Delete` that runs when the request's result
channel resolves (success or failure alike). -/
def activityDelete (s : HandlerState) (chatID : Int) : HandlerState :=
  ⟨s.activity.filter (fun a => a != chatID), s.queue⟩

/-- What `mediaWorker` does with one dequeued request: more than one asset
takes the overlay path, otherwise it evaluates `req.EmoteIDs[0]` — which on
an empty asset list is an out-of-range slice index (a Go runtime panic). -/
inductive WorkerAction where
  | processOverlayed (ids : List String)
  | processSingle (id : String)
  | indexOutOfRange
deriving DecidableEq

/-- The branching of `mediaWorker` on one dequeued request. -/
def mediaWorker (req : UserRequest) : WorkerAction :=
  if req.emoteIDs.length > 1 then WorkerAction.processOverlayed req.emoteIDs
  else
    match req.emoteIDs with
    | [] => WorkerAction.indexOutOfRange
    | e :: _ => WorkerAction.processSingle e

end MediaHandler

/-- Claim C2: a submission whose text has zero whitespace tokens is NOT
rejected — the validation loop runs zero times (whatever the validator,
here the one rejecting everything), the chat ID enters the activity cache
and a request with an empty asset list is enqueued, which the worker then
dispatches to `req.EmoteIDs[0]`, an out-of-range index.  The other two
boundary behaviours of the claim do hold: five tokens are truncated to the
first three before validation, and exactly one token takes the single-asset
path. -/
theorem c2_empty_submission_enqueued :
    MediaHandler.CreateVideoFromEmote (fun _ => none) ⟨[], []⟩ 7 1 "" =
      (⟨[7], [⟨7, 1, []⟩]⟩, MediaHandler.SubmitOutcome.enqueued ⟨7, 1, []⟩) ∧
    MediaHandler.mediaWorker ⟨7, 1, []⟩ =
      MediaHandler.WorkerAction.indexOutOfRange ∧
    (MediaHandler.fields "a b c d e").take
        (min (MediaHandler.fields "a b c d e").length
          MediaHandler.maxOverlayedEmotes) = ["a", "b", "c"] ∧
    (MediaHandler.CreateVideoFromEmote (fun t => some t) ⟨[], []⟩ 8 1 "x").2 =
      MediaHandler.SubmitOutcome.enqueued ⟨8, 1, ["x"]⟩ ∧
    MediaHandler.mediaWorker ⟨8, 1, ["x"]⟩ =
      MediaHandler.WorkerAction.processSingle "x" := by
  refine ⟨by decide, by decide, by decide, by decide, by decide⟩

/-- Claim C3: a submission whose chat ID is already in the activity cache is
rejected with no mutation of cache or queue; otherwise a validation
rejection leaves the state untouched, and an enqueued request has the chat
ID inserted into the cache alongside the request appended to the queue,
with the deferred delete removing exactly that ID once the request
resolves. -/
theorem c3_single_flight (validate : String → Option String)
    (s : MediaHandler.HandlerState) (cid mid : Int) (text : String) :
    (cid ∈ s.activity →
      MediaHandler.CreateVideoFromEmote validate s cid mid text =
        (s, MediaHandler.SubmitOutcome.busy)) ∧
    (cid ∉ s.activity →
      ((MediaHandler.CreateVideoFromEmote validate s cid mid text).2 =
          MediaHandler.SubmitOutcome.invalid →
        (MediaHandler.CreateVideoFromEmote validate s cid mid text).1 = s) ∧
      (∀ req, (MediaHandler.CreateVideoFromEmote validate s cid mid text).2 =
          MediaHandler.SubmitOutcome.enqueued req →
        (MediaHandler.CreateVideoFromEmote validate s cid mid text).1 =
          ⟨cid :: s.activity, s.queue ++ [req]⟩ ∧
        MediaHandler.activityDelete
            ((MediaHandler.CreateVideoFromEmote validate s cid mid text).1) cid =
          ⟨s.activity, s.queue ++ [req]⟩)) := by
  constructor
  · intro h
    unfold MediaHandler.CreateVideoFromEmote
    rw [if_pos h]
  · intro h
    have hact : s.activity.filter (fun a => a != cid) = s.activity := by
      apply List.filter_eq_self.mpr
      intro a ha
      exact bne_iff_ne.mpr (fun e => h (e ▸ ha))
    unfold MediaHandler.CreateVideoFromEmote
    rw [if_neg h]
    cases hval : MediaHandler.validateAll validate
        ((MediaHandler.fields text).take
          (min (MediaHandler.fields text).length
            MediaHandler.maxOverlayedEmotes)) with
    | none =>
      refine ⟨fun _ => rfl, fun req hreq => absurd hreq (by simp)⟩
    | some ids =>
      refine ⟨fun hinv => absurd hinv (by simp), fun req hreq => ?_⟩
      simp only [MediaHandler.SubmitOutcome.enqueued.injEq] at hreq
      subst hreq
      have hfil : (cid :: s.activity).filter (fun a => a != cid) = s.activity := by
        rw [List.filter_cons]
        simp [hact]
      refine ⟨rfl, ?_⟩
      simp [MediaHandler.activityDelete, hfil]

/-- Closed instance of `c3_single_flight`: a duplicate chat ID is rejected
without mutation, and a fresh submission's deferred delete restores the
activity cache while the request stays queued. -/
theorem c3_single_flight_witness :
    MediaHandler.CreateVideoFromEmote (fun t => some t) ⟨[5], []⟩ 5 1 "x" =
      (⟨[5], []⟩, MediaHandler.SubmitOutcome.busy) ∧
    MediaHandler.activityDelete
        ((MediaHandler.CreateVideoFromEmote (fun t => some t) ⟨[], []⟩ 9 1 "x").1) 9 =
      ⟨[], [⟨9, 1, ["x"]⟩]⟩ :=
  ⟨(c3_single_flight (fun t => some t) ⟨[5], []⟩ 5 1 "x").1 (by decide),
   ((((c3_single_flight (fun t => some t) ⟨[], []⟩ 9 1 "x").2 (by decide)).2
      ⟨9, 1, ["x"]⟩) (by decide)).2⟩

end SevenTV
